import Mathlib

/-!
Verification of the CV-to-Job compatibility scoring engine
(`matching_algorithm.py` and `feedback_system.py`).

The Python code is shallowly embedded: every function below is a direct
transcription of the corresponding Python function.  Numbers are modelled
as exact rationals (`ℚ`).  The pretrained sentence-embedding model is
modelled as an abstract similarity function
`sim : String → String → ℚ` (it stands for
`cosine_similarity(model.encode(a), model.encode(b))`); the regex-based
extraction `_extract_experience_years` is likewise abstracted as a
function `ey : String → Option ℕ` of the CV text.  All theorems that
quantify over the system quantify over these two parameters.

Python `dict`s whose exact key set matters (the education-details dict,
whose key `required_degree_level` is looked up as `required_degree` by
`_generate_recommendations`) are modelled as association lists with a
`.get`-style lookup; dicts whose shape is fixed are modelled as
structures.  The value returned by `_get_matched_skills` is a sum type,
because the Python function returns a `list` on one branch and a `dict`
on the other.

The similarity values stored by `_get_matched_skills` are tagged
`npfloat32`: in the Python code they are `numpy.float32` scalars
(`sentence_transformers` encodes to float32, `sklearn`'s
`cosine_similarity` preserves the dtype, and `round(x, 2)` on a numpy
scalar returns a numpy scalar), and `json.dumps` raises `TypeError` on
them.  Report scores are kept as plain floats here; this under-models
the set of non-serialisable values and is only ever used to *refute*
serialisability claims, never to establish them.

Apostrophes inside Python string literals are rendered with the
typographic character ’.  Braces inside string literals are written with
the escapes \x7b and \x7d.  No claim depends on the exact prose of the
generated feedback sentences.
-/

/-- Python `str.lower()` (ASCII, as exercised by the repository data). -/
def pyLower (s : String) : String := ⟨s.data.map Char.toLower⟩

/-- `sub` is a prefix of `l`, on character lists. -/
def charPrefix : List Char → List Char → Bool
  | [], _ => true
  | _ :: _, [] => false
  | a :: xs, b :: ys => a = b && charPrefix xs ys

/-- Helper for `pyIn`: does `sub` occur inside `l`? -/
def charSubstr (sub : List Char) : List Char → Bool
  | [] => charPrefix sub []
  | c :: rest => charPrefix sub (c :: rest) || charSubstr sub rest

/-- Python `sub in s` on strings (substring containment). -/
def pyIn (sub s : String) : Bool := charSubstr sub.data s.data

/-- Python `' '.join(xs)`. -/
def pyJoin (xs : List String) : String := String.intercalate (" ") xs

/-- Python `s.split()` (split on whitespace, dropping empty pieces). -/
def pySplitWS (s : String) : List String :=
  (s.split Char.isWhitespace).filter (fun p => p ≠ "")

/-- Python `round` to the nearest integer, ties to even (banker's rounding),
on an exact rational. -/
def roundHalfEven (q : ℚ) : ℤ :=
  let n : ℤ := q.num
  let d : ℤ := (q.den : ℤ)
  let f : ℤ := n / d
  let r2 : ℤ := 2 * (n % d)
  if r2 < d then f
  else if d < r2 then f + 1
  else if f % 2 = 0 then f else f + 1

/-- Python `round(x, 2)`. -/
def pyRound2 (q : ℚ) : ℚ := ((roundHalfEven (q * 100) : ℤ) : ℚ) / 100

/-- Python `str()` of the float value `q`.  All floats formatted by the
code are results of `round(_, 2)`, so `q` always has a denominator
dividing 100; other denominators fall back to fraction notation. -/
def fmtFloat (q : ℚ) : String :=
  let d : ℤ := (q.den : ℤ)
  if 100 % d = 0 then
    let m : ℤ := q.num * (100 / d)
    let sign : String := if m < 0 then "-" else ""
    let a : ℕ := m.natAbs
    let ip : ℕ := a / 100
    let fr : ℕ := a % 100
    let frs : String :=
      if fr = 0 then "0"
      else if fr % 10 = 0 then toString (fr / 10)
      else if fr < 10 then "0" ++ toString fr
      else toString fr
    sign ++ toString ip ++ "." ++ frs
  else toString q.num ++ "/" ++ toString q.den

/-- Python `str.replace('_', ' ')`. -/
def pyReplaceUnderscore (s : String) : String :=
  ⟨s.data.map (fun c => if c = '_' then ' ' else c)⟩

/-- `np.max` over a row of the similarity matrix (the row is nonempty in
every reachable call). -/
def npMax (l : List ℚ) : ℚ := l.foldl max (l.headD 0)

/-- `np.argmax` over a row of the similarity matrix: index of the first
maximal entry. -/
def npArgmax (l : List ℚ) : ℕ :=
  (l.enum.foldl (fun acc p => if acc.2 < p.2 then p else acc) (0, l.headD 0)).1

/-! ## Data model (§3 of the spec; `cv_data` / `job_data` dicts) -/

/-- The fields of `cv_data` read by the scoring core. -/
structure CvData where
  skills : List String
  education : List String
  text : String
deriving DecidableEq

/-- The fields of `job_data` read by the scoring core.  `experience_years`
and `experience_level` model `job_data['experience_requirements']`'s
`years` and `level` entries; `job_title` is `None` when the key is
absent. -/
structure JobData where
  required_skills : List String
  experience_years : Option ℕ
  experience_level : Option String
  education_requirements : List String
  responsibilities : List String
  job_title : Option String
  text : String
deriving DecidableEq

/-- A Python float-like number: either a plain `float` or a
`numpy.float32` scalar (which `json.dumps` rejects). -/
inductive PyNum where
  | pyfloat (q : ℚ)
  | npfloat32 (q : ℚ)
deriving DecidableEq

/-- One entry of the `semantic` list built by `_get_matched_skills`. -/
structure SemMatch where
  job_skill : String
  cv_skill : String
  similarity : PyNum
deriving DecidableEq

/-- The value returned by `_get_matched_skills`: the Python function
returns the empty `list` `[]` when either skill list is empty, and a
`dict` with keys `exact` and `semantic` otherwise. -/
inductive MatchedSkills where
  | emptyList
  | result (exact : List String) (semantic : List SemMatch)
deriving DecidableEq

/-- The `exact` entries of a `_get_matched_skills` value (none when the
value is the empty list). -/
def MatchedSkills.exactList : MatchedSkills → List String
  | .emptyList => []
  | .result e _ => e

/-- The `semantic` entries of a `_get_matched_skills` value; this models
`.get('semantic', [])` on the dict branch. -/
def MatchedSkills.semanticList : MatchedSkills → List SemMatch
  | .emptyList => []
  | .result _ s => s

/-! ## `matching_algorithm.py` -/

/-- `MatchingAlgorithm._calculate_semantic_similarity`: 0 on an empty
text, otherwise the model similarity clamped to [0, 1]. -/
def calculate_semantic_similarity (sim : String → String → ℚ)
    (text1 text2 : String) : ℚ :=
  if text1 = "" ∨ text2 = "" then 0
  else max 0 (min (sim text1 text2) 1)

/-- `np.max(similarity_matrix[i])` for the row of job skill `jsL`
(already lowercased) against the lowercased CV skills `cvL`. -/
def bestSim (sim : String → String → ℚ) (cvL : List String) (jsL : String) : ℚ :=
  npMax (cvL.map (fun c => sim jsL c))

/-- `MatchingAlgorithm._match_skills`. -/
def match_skills (sim : String → String → ℚ)
    (cv_skills job_skills : List String) : ℚ :=
  if job_skills = [] then 1
  else if cv_skills = [] then 0
  else
    let cv_skills_lower := cv_skills.map pyLower
    let job_skills_lower := job_skills.map pyLower
    let exact_matches : ℕ :=
      (job_skills_lower.filter (fun s => cv_skills_lower.contains s)).length
    let remaining_job_skills :=
      job_skills_lower.filter (fun s => !cv_skills_lower.contains s)
    -- the guard `if remaining_job_skills and cv_skills` is the identity
    -- here: the fold over an empty list is the initial value 0
    let semantic_score : ℚ :=
      remaining_job_skills.foldl (fun acc js =>
        let best_match := bestSim sim cv_skills_lower js
        if 3/4 < best_match then acc + best_match else acc) 0
    let total_required_skills : ℚ := (job_skills.length : ℚ)
    min ((7/10 * (exact_matches : ℚ) + 3/10 * semantic_score)
      / total_required_skills) 1

/-- `MatchingAlgorithm._get_matched_skills`.  The similarity stored in a
semantic entry is a `numpy.float32` (see the header comment). -/
def get_matched_skills (sim : String → String → ℚ)
    (cv_skills job_skills : List String) : MatchedSkills :=
  if cv_skills = [] ∨ job_skills = [] then .emptyList
  else
    let cv_skills_lower := cv_skills.map pyLower
    let exact_matches :=
      job_skills.filter (fun s => cv_skills_lower.contains (pyLower s))
    let remaining_job_skills :=
      job_skills.filter (fun s => !cv_skills_lower.contains (pyLower s))
    let semantic_matches : List SemMatch :=
      remaining_job_skills.filterMap (fun job_skill =>
        let row := cv_skills_lower.map (fun c => sim (pyLower job_skill) c)
        let best_match_index := npArgmax row
        let best_match_score := npMax row
        if 3/4 < best_match_score then
          some { job_skill := job_skill
                 cv_skill := cv_skills.getD best_match_index ("")
                 similarity := .npfloat32 (pyRound2 best_match_score) }
        else none)
    .result exact_matches semantic_matches

/-- `MatchingAlgorithm._get_missing_skills`. -/
def get_missing_skills (sim : String → String → ℚ)
    (cv_skills job_skills : List String) : List String :=
  if job_skills = [] then []
  else if cv_skills = [] then job_skills
  else
    let cv_skills_lower := cv_skills.map pyLower
    let exact_misses :=
      job_skills.filter (fun s => !cv_skills_lower.contains (pyLower s))
    let semantic_matches :=
      (get_matched_skills sim cv_skills job_skills).semanticList
    let semantic_match_job_skills := semantic_matches.map SemMatch.job_skill
    exact_misses.filter (fun s => !semantic_match_job_skills.contains s)

/-- The years-credit computed inside `_match_experience` (`years_score`):
1.0 when the CV years meet the requirement, linear partial credit
otherwise, 0.0 when the CV years are unknown. -/
def experience_years_score (cv_experience_years : Option ℕ)
    (required_years : ℕ) : ℚ :=
  match cv_experience_years with
  | none => 0
  | some cy => if required_years ≤ cy then 1 else (cy : ℚ) / (required_years : ℚ)

/-- The relevance component computed inside `_match_experience`:
semantic similarity of the whitespace-normalised CV text and the joined
responsibilities, 0 if either side is empty. -/
def relevance_component (sim : String → String → ℚ)
    (cv_data : CvData) (job_data : JobData) : ℚ :=
  let cv_experience_text := pyJoin (pySplitWS cv_data.text)
  let job_responsibilities := pyJoin job_data.responsibilities
  if cv_experience_text ≠ "" ∧ job_responsibilities ≠ "" then
    calculate_semantic_similarity sim cv_experience_text job_responsibilities
  else 0

/-- `MatchingAlgorithm._match_experience`.  `ey` stands for
`self._extract_experience_years`, a pure function of the CV text.
`if not required_years` is true both for `None` and for `0`. -/
def match_experience (sim : String → String → ℚ) (ey : String → Option ℕ)
    (cv_data : CvData) (job_data : JobData) : ℚ :=
  match job_data.experience_years with
  | none => 1
  | some required_years =>
    if required_years = 0 then 1
    else
      let cv_experience_years := ey cv_data.text
      let years_score := experience_years_score cv_experience_years required_years
      6/10 * years_score + 4/10 * relevance_component sim cv_data job_data

/-- The `degree_levels` dict of `matching_algorithm.py`, in insertion
order. -/
def degree_levels : List (String × ℕ) :=
  [("bachelor", 1), ("bs", 1), ("ba", 1), ("undergraduate", 1),
   ("master", 2), ("ms", 2), ("ma", 2), ("mba", 2), ("graduate", 2),
   ("phd", 3), ("doctorate", 3), ("doctoral", 3), ("postgraduate", 3)]

/-- The degree-level scan of `_match_education`: highest ordinal whose
keyword occurs in the lowercased text. -/
def degreeLevelOf (text : String) : ℕ :=
  degree_levels.foldl (fun acc kv =>
    if pyIn kv.1 (pyLower text) then max acc kv.2 else acc) 0

/-- `MatchingAlgorithm._match_education`. -/
def match_education (sim : String → String → ℚ)
    (cv_education job_education_requirements : List String) : ℚ :=
  if job_education_requirements = [] then 1
  else if cv_education = [] then 2/10
  else
    let cv_education_text := pyJoin cv_education
    let job_education_text := pyJoin job_education_requirements
    let education_similarity :=
      calculate_semantic_similarity sim cv_education_text job_education_text
    let cv_degree_level := degreeLevelOf cv_education_text
    let job_degree_level := degreeLevelOf job_education_text
    let degree_match : ℚ :=
      if 0 < job_degree_level then
        if job_degree_level ≤ cv_degree_level then 1
        else (cv_degree_level : ℚ) / (job_degree_level : ℚ)
      else 1
    5/10 * education_similarity + 5/10 * degree_match

/-- The `details` dict built by `_get_experience_details`. -/
structure ExperienceDetails where
  required_years : Option ℕ
  cv_years : Option ℕ
  required_level : Option String
  gap : Option ℤ
deriving DecidableEq

/-- `MatchingAlgorithm._get_experience_details`. -/
def get_experience_details (ey : String → Option ℕ)
    (cv_data : CvData) (job_data : JobData) : ExperienceDetails :=
  let required_years := job_data.experience_years
  let cv_experience_years := ey cv_data.text
  { required_years := required_years
    cv_years := cv_experience_years
    required_level := job_data.experience_level
    gap := match required_years, cv_experience_years with
           | some r, some c => some ((r : ℤ) - (c : ℤ))
           | _, _ => none }

/-- A value of the education-details dict: `None`, a keyword string, or a
boolean. -/
inductive EduVal where
  | none
  | str (s : String)
  | bool (b : Bool)
deriving DecidableEq

/-- Python `d.get(k)` on the education-details dict (default `None`). -/
def eduGet (d : List (String × EduVal)) (k : String) : EduVal :=
  (d.lookup k).getD EduVal.none

/-- State of the keyword scan in `_get_education_details`:
(cv level, cv name, job level, job name). -/
def eduScanStep (cvText jobText : String)
    (acc : ℕ × Option String × ℕ × Option String) (kv : String × ℕ) :
    ℕ × Option String × ℕ × Option String :=
  let acc :=
    if pyIn kv.1 (pyLower cvText) ∧ acc.1 < kv.2 then
      (kv.2, some kv.1, acc.2.2.1, acc.2.2.2)
    else acc
  if pyIn kv.1 (pyLower jobText) ∧ acc.2.2.1 < kv.2 then
    (acc.1, acc.2.1, kv.2, some kv.1)
  else acc

/-- `MatchingAlgorithm._get_education_details`.  The returned association
list models the Python dict; note that its keys are `cv_degree_level`,
`required_degree_level` and `meets_requirements` — there is no
`required_degree` key. -/
def get_education_details
    (cv_education job_education_requirements : List String) :
    List (String × EduVal) :=
  let cv_education_text := pyJoin cv_education
  let job_education_text := pyJoin job_education_requirements
  let scan := degree_levels.foldl
    (eduScanStep cv_education_text job_education_text) (0, none, 0, none)
  let cv_degree_level := scan.1
  let cv_degree_name := scan.2.1
  let job_degree_level := scan.2.2.1
  let job_degree_name := scan.2.2.2
  [("cv_degree_level",
      match cv_degree_name with | some s => EduVal.str s | none => EduVal.none),
   ("required_degree_level",
      match job_degree_name with | some s => EduVal.str s | none => EduVal.none),
   ("meets_requirements",
      EduVal.bool (if 0 < job_degree_level
                   then job_degree_level ≤ cv_degree_level else true))]

/-- The component weights set in `MatchingAlgorithm.__init__`. -/
def weights_skills : ℚ := 35/100

/-- Weight of the experience component. -/
def weights_experience : ℚ := 30/100

/-- Weight of the education component. -/
def weights_education : ℚ := 20/100

/-- Weight of the whole-document similarity component. -/
def weights_overall : ℚ := 15/100

/-- The skills entry of the match report. -/
structure SkillsComponent where
  score : ℚ
  weight : ℚ
  matched : MatchedSkills
  missing : List String
deriving DecidableEq

/-- The experience entry of the match report. -/
structure ExperienceComponent where
  score : ℚ
  weight : ℚ
  details : ExperienceDetails
deriving DecidableEq

/-- The education entry of the match report. -/
structure EducationComponent where
  score : ℚ
  weight : ℚ
  details : List (String × EduVal)
deriving DecidableEq

/-- The overall-similarity entry of the match report. -/
structure OverallSimilarityComponent where
  score : ℚ
  weight : ℚ
deriving DecidableEq

/-- The dict returned by `MatchingAlgorithm.calculate_match`. -/
structure MatchReport where
  overall_match : ℚ
  skills : SkillsComponent
  experience : ExperienceComponent
  education : EducationComponent
  overall_similarity : OverallSimilarityComponent
deriving DecidableEq

/-- `MatchingAlgorithm.calculate_match`. -/
def calculate_match (sim : String → String → ℚ) (ey : String → Option ℕ)
    (cv_data : CvData) (job_data : JobData) : MatchReport :=
  let skills_score := match_skills sim cv_data.skills job_data.required_skills
  let experience_score := match_experience sim ey cv_data job_data
  let education_score :=
    match_education sim cv_data.education job_data.education_requirements
  let overall_score :=
    calculate_semantic_similarity sim cv_data.text job_data.text
  let final_score :=
    weights_skills * skills_score +
    weights_experience * experience_score +
    weights_education * education_score +
    weights_overall * overall_score
  { overall_match := pyRound2 (final_score * 100)
    skills :=
      { score := pyRound2 (skills_score * 100)
        weight := weights_skills
        matched := get_matched_skills sim cv_data.skills job_data.required_skills
        missing := get_missing_skills sim cv_data.skills job_data.required_skills }
    experience :=
      { score := pyRound2 (experience_score * 100)
        weight := weights_experience
        details := get_experience_details ey cv_data job_data }
    education :=
      { score := pyRound2 (education_score * 100)
        weight := weights_education
        details := get_education_details cv_data.education
          job_data.education_requirements }
    overall_similarity :=
      { score := pyRound2 (overall_score * 100)
        weight := weights_overall } }

/-! ## `feedback_system.py` -/

/-- The skills entry of `component_feedback`. -/
structure SkillsFeedback where
  score : ℚ
  feedback : String
  matched_exact : List String
  matched_semantic : List SemMatch
  missing_skills : List String
deriving DecidableEq

/-- The experience entry of `component_feedback`. -/
structure ExperienceFeedback where
  score : ℚ
  feedback : String
  required_years : Option ℕ
  your_years : Option ℕ
  gap : Option ℤ
deriving DecidableEq

/-- The education entry of `component_feedback`.  `required_degree` and
`your_degree` carry the values returned by `.get` on the details dict. -/
structure EducationFeedback where
  score : ℚ
  feedback : String
  required_degree : EduVal
  your_degree : EduVal
  meets_requirements : Bool
deriving DecidableEq

/-- One recommendation entry. -/
structure Recommendation where
  category : String
  recommendation : String
  priority : String
deriving DecidableEq

/-- The dict returned by `FeedbackSystem.generate_feedback`. -/
structure FeedbackReport where
  overall_match : ℚ
  match_category : String
  summary : String
  skills_feedback : SkillsFeedback
  experience_feedback : ExperienceFeedback
  education_feedback : EducationFeedback
  recommendations : List Recommendation
  job_title : String
  match_details : MatchReport
deriving DecidableEq

/-- Python `str()` of an optional int (`str(None)` is `"None"`). -/
def optNatStr : Option ℕ → String
  | none => "None"
  | some n => toString n

/-- Python `str()` of an education-details value inside an f-string. -/
def EduVal.display : EduVal → String
  | .none => "None"
  | .str s => s
  | .bool b => if b then "True" else "False"

/-- `FeedbackSystem._get_match_category`. -/
def get_match_category (match_percentage : ℚ) : String :=
  if 80 ≤ match_percentage then "high_match"
  else if 60 ≤ match_percentage then "medium_match"
  else "low_match"

/-- The `self.templates` strings of `FeedbackSystem.__init__`, already
`.format`-ted with the match percentage. -/
def feedback_template (category : String) (match_percentage : ℚ) : String :=
  if category = "high_match" then
    "Your CV shows a strong match for this position! You have " ++
    fmtFloat match_percentage ++
    "% compatibility with the job requirements."
  else if category = "medium_match" then
    "Your CV shows a moderate match for this position with " ++
    fmtFloat match_percentage ++
    "% compatibility. With some targeted improvements, you could significantly increase your chances."
  else
    "Your CV currently has " ++ fmtFloat match_percentage ++
    "% compatibility with this position. Consider the recommendations below to improve your match."

/-- `FeedbackSystem._generate_skills_feedback`.  The two
`matched_skills.get(...)` calls raise `AttributeError` when
`_get_matched_skills` returned the empty `list` instead of a dict. -/
def generate_skills_feedback (match_result : MatchReport)
    (job_data : JobData) : Except String SkillsFeedback :=
  let skills_component := match_result.skills
  let skills_score := skills_component.score
  let missing_skills := skills_component.missing
  match skills_component.matched with
  | .emptyList => .error ("AttributeError: ’list’ object has no attribute ’get’")
  | .result exact semantic =>
    let exact_matches := exact.length
    let semantic_matches := semantic.length
    let total_matches := exact_matches + semantic_matches
    let required_skills := job_data.required_skills
    let total_required := required_skills.length
    let feedback_text :=
      if total_required = 0 then
        "No specific skills were identified in the job description."
      else if (80 : ℚ) ≤ skills_score then
        "Your CV demonstrates strong alignment with the required skills for this position. You match " ++
        toString total_matches ++ " out of " ++ toString total_required ++
        " required skills (" ++ fmtFloat skills_score ++ "%)."
      else if (60 : ℚ) ≤ skills_score then
        "Your CV shows good alignment with many of the required skills. You match " ++
        toString total_matches ++ " out of " ++ toString total_required ++
        " required skills (" ++ fmtFloat skills_score ++ "%)."
      else
        "Your CV currently matches " ++ toString total_matches ++ " out of " ++
        toString total_required ++ " required skills (" ++
        fmtFloat skills_score ++
        "%). Adding the missing skills to your CV would significantly improve your match."
    .ok { score := skills_score
          feedback := feedback_text
          matched_exact := exact
          matched_semantic := semantic
          missing_skills := missing_skills }

/-- `FeedbackSystem._generate_experience_feedback`. -/
def generate_experience_feedback (match_result : MatchReport) :
    ExperienceFeedback :=
  let experience_component := match_result.experience
  let experience_score := experience_component.score
  let experience_details := experience_component.details
  let required_years := experience_details.required_years
  let cv_years := experience_details.cv_years
  let gap := experience_details.gap
  let feedback_text :=
    match required_years with
    | none =>
      "No specific experience requirements were identified in the job description."
    | some ry =>
      match cv_years with
      | none =>
        "The job requires " ++ toString ry ++
        " years of experience, but we couldn’t identify your years of experience from your CV. Consider clearly stating your years of experience."
      | some cy =>
        match gap with
        | none =>
          "The job requires " ++ toString ry ++
          " years of experience. We couldn’t determine if there’s a gap between your experience and the requirement."
        | some g =>
          if g ≤ 0 then
            "Your experience (" ++ toString cy ++
            " years) meets or exceeds the required experience (" ++
            toString ry ++ " years) for this position."
          else
            "The job requires " ++ toString ry ++
            " years of experience, but your CV indicates " ++ toString cy ++
            " years. There’s a gap of " ++ toString g ++ " years."
  let relevance_feedback :=
    if (80 : ℚ) ≤ experience_score then
      "Your experience appears highly relevant to the job responsibilities."
    else if (60 : ℚ) ≤ experience_score then
      "Your experience appears moderately relevant to the job responsibilities."
    else
      "Your experience may not be closely aligned with the job responsibilities."
  { score := experience_score
    feedback := feedback_text ++ " " ++ relevance_feedback
    required_years := required_years
    your_years := cv_years
    gap := gap }

/-- `FeedbackSystem._generate_education_feedback`.  Note that this
function reads the details dict with the correct key
`required_degree_level`. -/
def generate_education_feedback (match_result : MatchReport) :
    EducationFeedback :=
  let education_component := match_result.education
  let education_score := education_component.score
  let education_details := education_component.details
  let cv_degree := eduGet education_details ("cv_degree_level")
  let required_degree := eduGet education_details ("required_degree_level")
  let meets_requirements :=
    match education_details.lookup ("meets_requirements") with
    | some (.bool b) => b
    | _ => false
  let feedback_text :=
    if required_degree = EduVal.none then
      "No specific education requirements were identified in the job description."
    else if cv_degree = EduVal.none then
      "The job requires a " ++ required_degree.display ++
      " degree, but we couldn’t identify your education level from your CV. Consider clearly stating your education."
    else if meets_requirements then
      "Your education (" ++ cv_degree.display ++
      ") meets or exceeds the required education (" ++
      required_degree.display ++ ") for this position."
    else
      "The job requires a " ++ required_degree.display ++
      " degree, but your CV indicates a " ++ cv_degree.display ++
      " degree. Consider highlighting any additional qualifications or relevant experience to compensate."
  { score := education_score
    feedback := feedback_text
    required_degree := required_degree
    your_degree := cv_degree
    meets_requirements := meets_requirements }

/-- The rule-generated recommendation list of
`FeedbackSystem._generate_recommendations`, before the final
empty-list fallback, in creation order.  The education rule reads
`education_details.get('required_degree')` — a key that
`_get_education_details` never writes (it writes
`required_degree_level`), so that lookup yields `None`. -/
def generate_recommendations_rules (match_result : MatchReport) :
    List Recommendation :=
  let missing_skills := match_result.skills.missing
  let skills_recs : List Recommendation :=
    if missing_skills ≠ [] then
      [{ category := "skills"
         recommendation :=
           if missing_skills.length ≤ 3 then
             "Add the following skills to your CV: " ++
             String.intercalate (", ") missing_skills ++ "."
           else
             "Add key missing skills to your CV, especially: " ++
             String.intercalate (", ") (missing_skills.take 3) ++ "."
         priority := "high" }]
    else []
  let experience_details := match_result.experience.details
  let experience_recs : List Recommendation :=
    match experience_details.gap with
    | some g =>
      if 0 < g then
        [{ category := "experience"
           recommendation :=
             "Highlight any additional experience that might not be clearly stated in your CV. The job requires " ++
             optNatStr experience_details.required_years ++
             " years of experience."
           priority := "medium" }]
      else []
    | none => []
  let education_details := match_result.education.details
  let meets_requirements :=
    match education_details.lookup ("meets_requirements") with
    | some (.bool b) => b
    | _ => false
  let education_recs : List Recommendation :=
    if meets_requirements = false ∧ eduGet education_details ("required_degree") ≠ EduVal.none then
      [{ category := "education"
         recommendation :=
           "Emphasize any additional certifications, training, or relevant projects that compensate for the difference between your education level and the required " ++
           (eduGet education_details ("required_degree")).display ++ " degree."
         priority := "medium" }]
    else []
  let general_recs : List Recommendation :=
    if match_result.overall_match < 70 then
      [{ category := "keywords"
         recommendation :=
           "Optimize your CV with keywords from the job description, especially in your summary and work experience sections."
         priority := "high" },
       { category := "tailoring"
         recommendation :=
           "Tailor your CV to highlight experiences and achievements most relevant to this specific position."
         priority := "medium" }]
    else []
  let achievements_recs : List Recommendation :=
    if 50 ≤ match_result.overall_match ∧ match_result.overall_match < 80 then
      [{ category := "achievements"
         recommendation :=
           "Add more quantifiable achievements to your work experience to demonstrate impact (e.g., ’Increased sales by 20%’ rather than ’Responsible for sales’)."
         priority := "medium" }]
    else []
  skills_recs ++ experience_recs ++ education_recs ++ general_recs ++
    achievements_recs

/-- `FeedbackSystem._generate_recommendations`: the rule list, or the
single general recommendation when no rule fired. -/
def generate_recommendations (match_result : MatchReport) :
    List Recommendation :=
  let recommendations := generate_recommendations_rules match_result
  if recommendations = [] then
    [{ category := "general"
       recommendation :=
         "Your CV is well-matched to this position. Consider adding more specific achievements and metrics to strengthen your application further."
       priority := "low" }]
  else recommendations

/-- `FeedbackSystem.generate_feedback`.  The only failing step is the
skills feedback (see `generate_skills_feedback`); the error propagates
as a Python exception would. -/
def generate_feedback (match_result : MatchReport) (cv_data : CvData)
    (job_data : JobData) : Except String FeedbackReport :=
  let overall_match := match_result.overall_match
  let match_category := get_match_category overall_match
  let overall_feedback := feedback_template match_category overall_match
  match generate_skills_feedback match_result job_data with
  | .error e => .error e
  | .ok skills_feedback =>
    let experience_feedback := generate_experience_feedback match_result
    let education_feedback := generate_education_feedback match_result
    let recommendations := generate_recommendations match_result
    .ok { overall_match := overall_match
          match_category := pyReplaceUnderscore match_category
          summary := overall_feedback
          skills_feedback := skills_feedback
          experience_feedback := experience_feedback
          education_feedback := education_feedback
          recommendations := recommendations
          job_title := job_data.job_title.getD ("This position")
          match_details := match_result }

/-- Python `str.upper()` (ASCII). -/
def pyUpper (s : String) : String := ⟨s.data.map Char.toUpper⟩

/-- Python `str.capitalize()` (ASCII). -/
def pyCapitalize (s : String) : String :=
  match s.data with
  | [] => ""
  | c :: cs => ⟨c.toUpper :: cs.map Char.toLower⟩

/-- `'=' * 80`, the report rule line. -/
def ruleLine : String := ⟨List.replicate 80 '='⟩

/-- `FeedbackSystem._generate_text_report`. -/
def generate_text_report (feedback_report : FeedbackReport) : String :=
  let skills := feedback_report.skills_feedback
  let experience := feedback_report.experience_feedback
  let education := feedback_report.education_feedback
  let header : List String :=
    [ruleLine,
     "CV MATCH REPORT FOR: " ++ feedback_report.job_title,
     ruleLine,
     "\nOVERALL MATCH: " ++ fmtFloat feedback_report.overall_match ++ "% (" ++
       feedback_report.match_category ++ ")",
     "\nSUMMARY:",
     feedback_report.summary,
     "\nDETAILED FEEDBACK:",
     "\n1. SKILLS (Score: " ++ fmtFloat skills.score ++ "%)",
     "   " ++ skills.feedback]
  let exact_section : List String :=
    if skills.matched_exact ≠ [] then
      "\n   Matched Skills:" ::
        skills.matched_exact.map (fun skill => "   - " ++ skill)
    else []
  let semantic_section : List String :=
    if skills.matched_semantic ≠ [] then
      "\n   Similar Skills:" ::
        skills.matched_semantic.map (fun m =>
          "   - " ++ m.job_skill ++ " (similar to your skill: " ++
          m.cv_skill ++ ")")
    else []
  let missing_section : List String :=
    if skills.missing_skills ≠ [] then
      "\n   Missing Skills:" ::
        skills.missing_skills.map (fun skill => "   - " ++ skill)
    else []
  let exp_edu_section : List String :=
    ["\n2. EXPERIENCE (Score: " ++ fmtFloat experience.score ++ "%)",
     "   " ++ experience.feedback,
     "\n3. EDUCATION (Score: " ++ fmtFloat education.score ++ "%)",
     "   " ++ education.feedback,
     "\nRECOMMENDATIONS:"]
  let rec_section : List String :=
    (["high", "medium", "low"].map (fun priority =>
      let group := feedback_report.recommendations.filter
        (fun r => r.priority = priority)
      if group ≠ [] then
        ("\n" ++ pyUpper priority ++ " PRIORITY:") ::
          group.enum.map (fun p =>
            "   " ++ toString (p.1 + 1) ++ ". " ++ p.2.recommendation)
      else [])).flatten
  String.intercalate ("\n")
    (header ++ exact_section ++ semantic_section ++ missing_section ++
     exp_edu_section ++ rec_section)

/-- `FeedbackSystem._generate_html_report`. -/
def generate_html_report (feedback_report : FeedbackReport) : String :=
  let skills := feedback_report.skills_feedback
  let experience := feedback_report.experience_feedback
  let education := feedback_report.education_feedback
  let match_class :=
    if (80 : ℚ) ≤ feedback_report.overall_match then "high"
    else if (60 : ℚ) ≤ feedback_report.overall_match then "medium"
    else "low"
  let head_section : List String :=
    ["<!DOCTYPE html>",
     "<html lang=\"en\">",
     "<head>",
     "    <meta charset=\"UTF-8\">",
     "    <meta name=\"viewport\" content=\"width=device-width, initial-scale=1.0\">",
     "    <title>CV Match Report</title>",
     "    <style>",
     "        body \x7b font-family: Arial, sans-serif; line-height: 1.6; max-width: 800px; margin: 0 auto; padding: 20px; \x7d",
     "        h1, h2, h3 \x7b color: #333; \x7d",
     "        .header \x7b text-align: center; margin-bottom: 30px; \x7d",
     "        .match-score \x7b font-size: 24px; font-weight: bold; text-align: center; margin: 20px 0; \x7d",
     "        .high \x7b color: #28a745; \x7d",
     "        .medium \x7b color: #ffc107; \x7d",
     "        .low \x7b color: #dc3545; \x7d",
     "        .section \x7b margin-bottom: 30px; border: 1px solid #ddd; padding: 15px; border-radius: 5px; \x7d",
     "        .section-title \x7b margin-top: 0; border-bottom: 1px solid #eee; padding-bottom: 10px; \x7d",
     "        .skill-list \x7b display: flex; flex-wrap: wrap; \x7d",
     "        .skill-item \x7b background: #f8f9fa; padding: 5px 10px; margin: 5px; border-radius: 3px; \x7d",
     "        .missing-skill \x7b background: #fff3cd; \x7d",
     "        .recommendation \x7b padding: 10px; margin-bottom: 10px; border-left: 4px solid #ddd; \x7d",
     "        .high-priority \x7b border-left-color: #dc3545; \x7d",
     "        .medium-priority \x7b border-left-color: #ffc107; \x7d",
     "        .low-priority \x7b border-left-color: #28a745; \x7d",
     "    </style>",
     "</head>",
     "<body>",
     "    <div class=\"header\">",
     "        <h1>CV Match Report</h1>",
     "        <h2>" ++ feedback_report.job_title ++ "</h2>",
     "    </div>",
     "    <div class=\"match-score " ++ match_class ++ "\">",
     "        Overall Match: " ++ fmtFloat feedback_report.overall_match ++
       "% (" ++ feedback_report.match_category ++ ")",
     "    </div>",
     "    <div class=\"section\">",
     "        <h3 class=\"section-title\">Summary</h3>",
     "        <p>" ++ feedback_report.summary ++ "</p>",
     "    </div>",
     "    <div class=\"section\">",
     "        <h3 class=\"section-title\">Skills Assessment</h3>",
     "        <p><strong>Score: " ++ fmtFloat skills.score ++ "%</strong></p>",
     "        <p>" ++ skills.feedback ++ "</p>"]
  let exact_section : List String :=
    if skills.matched_exact ≠ [] then
      ["        <h4>Matched Skills</h4>", "        <div class=\"skill-list\">"] ++
      skills.matched_exact.map (fun skill =>
        "            <div class=\"skill-item\">" ++ skill ++ "</div>") ++
      ["        </div>"]
    else []
  let semantic_section : List String :=
    if skills.matched_semantic ≠ [] then
      ["        <h4>Similar Skills</h4>", "        <div class=\"skill-list\">"] ++
      skills.matched_semantic.map (fun m =>
        "            <div class=\"skill-item\">" ++ m.job_skill ++
        " (similar to: " ++ m.cv_skill ++ ")</div>") ++
      ["        </div>"]
    else []
  let missing_section : List String :=
    if skills.missing_skills ≠ [] then
      ["        <h4>Missing Skills</h4>", "        <div class=\"skill-list\">"] ++
      skills.missing_skills.map (fun skill =>
        "            <div class=\"skill-item missing-skill\">" ++ skill ++ "</div>") ++
      ["        </div>"]
    else []
  let exp_edu_section : List String :=
    ["    </div>",
     "    <div class=\"section\">",
     "        <h3 class=\"section-title\">Experience Assessment</h3>",
     "        <p><strong>Score: " ++ fmtFloat experience.score ++ "%</strong></p>",
     "        <p>" ++ experience.feedback ++ "</p>",
     "    </div>",
     "    <div class=\"section\">",
     "        <h3 class=\"section-title\">Education Assessment</h3>",
     "        <p><strong>Score: " ++ fmtFloat education.score ++ "%</strong></p>",
     "        <p>" ++ education.feedback ++ "</p>",
     "    </div>",
     "    <div class=\"section\">",
     "        <h3 class=\"section-title\">Recommendations</h3>"]
  let rec_section : List String :=
    (["high", "medium", "low"].map (fun priority =>
      let group := feedback_report.recommendations.filter
        (fun r => r.priority = priority)
      if group ≠ [] then
        ("        <h4>" ++ pyCapitalize priority ++ " Priority</h4>") ::
          (group.map (fun r =>
            ["        <div class=\"recommendation " ++ priority ++ "-priority\">",
             "            <p>" ++ r.recommendation ++ "</p>",
             "        </div>"])).flatten
      else [])).flatten
  String.intercalate ("\n")
    (head_section ++ exact_section ++ semantic_section ++ missing_section ++
     exp_edu_section ++ rec_section ++ ["    </div>", "</body>", "</html>"])

/-! ## JSON serialisation (`json.dumps` on the feedback dict) -/

/-- A Python value as seen by `json.dumps`. -/
inductive PyVal where
  | pynone
  | pybool (b : Bool)
  | pyint (n : ℤ)
  | pyfloat (q : ℚ)
  | pynpfloat32 (q : ℚ)
  | pystr (s : String)
  | pylist (xs : List PyVal)
  | pydict (kvs : List (String × PyVal))

/-- JSON string quoting (the characters that occur in the reports). -/
def jsonStr (s : String) : String :=
  "\"" ++ String.join (s.data.map (fun c =>
    if c = '"' then "\\\""
    else if c = '\\' then "\\\\"
    else if c = '\n' then "\\n"
    else if c = '\t' then "\\t"
    else String.singleton c)) ++ "\""

/-- `json.dumps`, modelled with explicit recursion fuel (Python has a
recursion limit; the report tree has depth far below the fuel used).
Values `json.dumps` cannot serialise — here `numpy.float32` scalars —
raise `TypeError`.  The exact `indent=2` whitespace layout is not
reproduced; no claim below relies on the whitespace of a *successful*
serialisation. -/
def json_dumps_fuel : ℕ → PyVal → Except String String
  | 0, _ => .error ("RecursionError: maximum recursion depth exceeded")
  | _ + 1, .pynone => .ok ("null")
  | _ + 1, .pybool b => .ok (if b then "true" else "false")
  | _ + 1, .pyint n => .ok (toString n)
  | _ + 1, .pyfloat q => .ok (fmtFloat q)
  | _ + 1, .pynpfloat32 _ =>
    .error ("TypeError: Object of type float32 is not JSON serializable")
  | _ + 1, .pystr s => .ok (jsonStr s)
  | fuel + 1, .pylist xs => do
    let ss ← xs.mapM (json_dumps_fuel fuel)
    .ok ("[" ++ String.intercalate (", ") ss ++ "]")
  | fuel + 1, .pydict kvs => do
    let ss ← kvs.mapM (fun kv => do
      let s ← json_dumps_fuel fuel kv.2
      pure (jsonStr kv.1 ++ ": " ++ s))
    .ok ("\x7b" ++ String.intercalate (", ") ss ++ "\x7d")

/-- `json.dumps` with the Python default recursion limit. -/
def json_dumps (v : PyVal) : Except String String := json_dumps_fuel 1000 v

/-- An optional int as a Python value. -/
def optIntVal : Option ℤ → PyVal
  | none => .pynone
  | some n => .pyint n

/-- An optional nat as a Python value. -/
def optNatVal : Option ℕ → PyVal
  | none => .pynone
  | some n => .pyint (n : ℤ)

/-- An optional string as a Python value. -/
def optStrVal : Option String → PyVal
  | none => .pynone
  | some s => .pystr s

/-- A float-or-numpy number as a Python value. -/
def PyNum.toPyVal : PyNum → PyVal
  | .pyfloat q => .pyfloat q
  | .npfloat32 q => .pynpfloat32 q

/-- An education-details value as a Python value. -/
def EduVal.toPyVal : EduVal → PyVal
  | .none => .pynone
  | .str s => .pystr s
  | .bool b => .pybool b

/-- A semantic-match entry as the dict built by `_get_matched_skills`. -/
def SemMatch.toPyVal (m : SemMatch) : PyVal :=
  .pydict [("job_skill", .pystr m.job_skill),
           ("cv_skill", .pystr m.cv_skill),
           ("similarity", m.similarity.toPyVal)]

/-- A `_get_matched_skills` value as a Python value: the empty list, or
the `exact`/`semantic` dict. -/
def MatchedSkills.toPyVal : MatchedSkills → PyVal
  | .emptyList => .pylist []
  | .result exact semantic =>
    .pydict [("exact", .pylist (exact.map PyVal.pystr)),
             ("semantic", .pylist (semantic.map SemMatch.toPyVal))]

/-- The experience-details dict as a Python value. -/
def ExperienceDetails.toPyVal (d : ExperienceDetails) : PyVal :=
  .pydict [("required_years", optNatVal d.required_years),
           ("cv_years", optNatVal d.cv_years),
           ("required_level", optStrVal d.required_level),
           ("gap", optIntVal d.gap)]

/-- The match-report dict built by `calculate_match` as a Python value. -/
def MatchReport.toPyVal (r : MatchReport) : PyVal :=
  .pydict
    [("overall_match", .pyfloat r.overall_match),
     ("components", .pydict
       [("skills", .pydict
         [("score", .pyfloat r.skills.score),
          ("weight", .pyfloat r.skills.weight),
          ("matched", r.skills.matched.toPyVal),
          ("missing", .pylist (r.skills.missing.map PyVal.pystr))]),
        ("experience", .pydict
         [("score", .pyfloat r.experience.score),
          ("weight", .pyfloat r.experience.weight),
          ("details", r.experience.details.toPyVal)]),
        ("education", .pydict
         [("score", .pyfloat r.education.score),
          ("weight", .pyfloat r.education.weight),
          ("details", .pydict (r.education.details.map
            (fun kv => (kv.1, kv.2.toPyVal))))]),
        ("overall_similarity", .pydict
         [("score", .pyfloat r.overall_similarity.score),
          ("weight", .pyfloat r.overall_similarity.weight)])])]

/-- A recommendation entry as a Python value. -/
def Recommendation.toPyVal (r : Recommendation) : PyVal :=
  .pydict [("category", .pystr r.category),
           ("recommendation", .pystr r.recommendation),
           ("priority", .pystr r.priority)]

/-- The feedback-report dict built by `generate_feedback` as a Python
value, with the keys in construction order. -/
def FeedbackReport.toPyVal (r : FeedbackReport) : PyVal :=
  .pydict
    [("overall_match", .pyfloat r.overall_match),
     ("match_category", .pystr r.match_category),
     ("summary", .pystr r.summary),
     ("component_feedback", .pydict
       [("skills", .pydict
         [("score", .pyfloat r.skills_feedback.score),
          ("feedback", .pystr r.skills_feedback.feedback),
          ("matched_skills", .pydict
            [("exact", .pylist (r.skills_feedback.matched_exact.map PyVal.pystr)),
             ("semantic", .pylist
               (r.skills_feedback.matched_semantic.map SemMatch.toPyVal))]),
          ("missing_skills", .pylist
            (r.skills_feedback.missing_skills.map PyVal.pystr))]),
        ("experience", .pydict
         [("score", .pyfloat r.experience_feedback.score),
          ("feedback", .pystr r.experience_feedback.feedback),
          ("required_years", optNatVal r.experience_feedback.required_years),
          ("your_years", optNatVal r.experience_feedback.your_years),
          ("gap", optIntVal r.experience_feedback.gap)]),
        ("education", .pydict
         [("score", .pyfloat r.education_feedback.score),
          ("feedback", .pystr r.education_feedback.feedback),
          ("required_degree", r.education_feedback.required_degree.toPyVal),
          ("your_degree", r.education_feedback.your_degree.toPyVal),
          ("meets_requirements", .pybool r.education_feedback.meets_requirements)])]),
     ("recommendations", .pylist (r.recommendations.map Recommendation.toPyVal)),
     ("job_title", .pystr r.job_title),
     ("match_details", r.match_details.toPyVal)]

/-- `FeedbackSystem.generate_report`: `json` serialises the report dict,
`html` renders markup, and every other format string falls through to
the text report. -/
def generate_report (feedback_report : FeedbackReport)
    (format : String) : Except String String :=
  if format = "json" then json_dumps feedback_report.toPyVal
  else if format = "html" then .ok (generate_html_report feedback_report)
  else .ok (generate_text_report feedback_report)

/-! ## Spec-side formulations (for refinement-style claims) -/

/-- Spec §4.1, `exactCount`: the number of required skills with a
case-insensitive exact match among the candidate skills. -/
def spec_exactCount (candidateSkills requiredSkills : List String) : ℕ :=
  (requiredSkills.filter (fun s =>
    (candidateSkills.map pyLower).contains (pyLower s))).length

/-- Spec §4.1, `semanticSimilarities`: for each required skill with no
exact match, its maximum embedding similarity against the candidate
skills, kept when it exceeds the 0.75 threshold. -/
def spec_semanticSimilarities (sim : String → String → ℚ)
    (candidateSkills requiredSkills : List String) : List ℚ :=
  ((requiredSkills.filter (fun s =>
      !(candidateSkills.map pyLower).contains (pyLower s))).map
    (fun s => bestSim sim (candidateSkills.map pyLower) (pyLower s))).filter
      (fun q => 3/4 < q)

/-- Spec §4.1 score formula:
`min(1.0, (0.7 * exactCount + 0.3 * sum(semanticSimilarities)) / totalRequired)`,
with the empty-set special cases. -/
def spec_skill_score (sim : String → String → ℚ)
    (candidateSkills requiredSkills : List String) : ℚ :=
  if requiredSkills = [] then 1
  else if candidateSkills = [] then 0
  else
    min 1 ((7/10 * (spec_exactCount candidateSkills requiredSkills : ℚ) +
      3/10 * (spec_semanticSimilarities sim candidateSkills requiredSkills).sum) /
      (requiredSkills.length : ℚ))

/-! ## Helper lemmas -/

/-- Filtering a mapped list is mapping the filtered list. -/
theorem lem_filter_of_map {α β : Type} (f : α → β) (p : β → Bool) :
    ∀ l : List α, (l.map f).filter p = (l.filter (fun x => p (f x))).map f := by
  intro l
  induction l with
  | nil => rfl
  | cons x xs ih =>
    by_cases h : p (f x) = true <;> simp [List.filter_cons, h, ih]

/-- The conditional accumulation loop of `_match_skills` computes the sum
of the values above the threshold. -/
theorem lem_foldl_cond_sum {α : Type} (g : α → ℚ) (c : ℚ) :
    ∀ (l : List α) (a : ℚ),
      l.foldl (fun acc x => if c < g x then acc + g x else acc) a =
        a + ((l.map g).filter (fun q => c < q)).sum := by
  intro l
  induction l with
  | nil => intro a; simp
  | cons x xs ih =>
    intro a
    by_cases h : c < g x
    · simp [List.filter_cons, h, ih]
      ring
    · simp [List.filter_cons, h, ih]

/-- `npMax` of a two-element row is the maximum of its entries. -/
theorem lem_npMax_pair (a b : ℚ) : npMax [a, b] = max a b := by
  simp [npMax, List.foldl, max_self]

/-- `List.contains` agrees with membership on string lists. -/
theorem lem_contains_iff {l : List String} {s : String} :
    l.contains s = true ↔ s ∈ l := by
  simp [List.contains, List.elem_iff]

/-- On nonempty inputs, the exact matches of `_get_matched_skills` are the
required skills with a case-insensitive hit among the candidate skills. -/
theorem lem_exactList (sim : String → String → ℚ) {cv job : List String}
    (hc : cv ≠ []) (hj : job ≠ []) :
    (get_matched_skills sim cv job).exactList =
      job.filter (fun s => (cv.map pyLower).contains (pyLower s)) := by
  simp only [get_matched_skills, if_neg (by simp [hc, hj] :
    ¬(cv = [] ∨ job = []))]
  rfl

/-- On nonempty inputs, the job-skill entries of the semantic matches are
exactly the non-exactly-matched required skills whose best similarity
exceeds the 0.75 threshold. -/
theorem lem_semantic_job_skills (sim : String → String → ℚ)
    {cv job : List String} (hc : cv ≠ []) (hj : job ≠ []) :
    ((get_matched_skills sim cv job).semanticList).map SemMatch.job_skill =
      (job.filter (fun s => !(cv.map pyLower).contains (pyLower s))).filter
        (fun s => decide (3/4 < bestSim sim (cv.map pyLower) (pyLower s))) := by
  simp only [get_matched_skills, if_neg (by simp [hc, hj] :
    ¬(cv = [] ∨ job = []))]
  simp only [MatchedSkills.semanticList]
  generalize (job.filter (fun s => !(cv.map pyLower).contains (pyLower s))) = l
  induction l with
  | nil => rfl
  | cons x xs ih =>
    by_cases h : 3/4 < bestSim sim (cv.map pyLower) (pyLower x)
    · simp only [List.filterMap_cons, List.filter_cons]
      rw [if_pos (by simpa [bestSim] using h)]
      simpa [h] using ih
    · simp only [List.filterMap_cons, List.filter_cons]
      rw [if_neg (by simpa [bestSim] using h)]
      simpa [h] using ih

/-- On nonempty inputs, the missing skills are the non-exactly-matched
required skills whose best similarity does not exceed the threshold. -/
theorem lem_missing_eq (sim : String → String → ℚ)
    {cv job : List String} (hc : cv ≠ []) (hj : job ≠ []) :
    get_missing_skills sim cv job =
      (job.filter (fun s => !(cv.map pyLower).contains (pyLower s))).filter
        (fun s => !(decide (3/4 < bestSim sim (cv.map pyLower) (pyLower s)))) := by
  simp only [get_missing_skills, if_neg hj, if_neg hc]
  rw [lem_semantic_job_skills sim hc hj]
  apply List.filter_congr
  intro s hs
  by_cases hC : decide (3/4 < bestSim sim (cv.map pyLower) (pyLower s)) = true
  · have hmem : s ∈ (job.filter (fun s => !(cv.map pyLower).contains (pyLower s))).filter
        (fun s => decide (3/4 < bestSim sim (cv.map pyLower) (pyLower s))) :=
      List.mem_filter.mpr ⟨hs, hC⟩
    rw [lem_contains_iff.mpr hmem, hC]
  · have hnmem : ((job.filter (fun s => !(cv.map pyLower).contains (pyLower s))).filter
        (fun s => decide (3/4 < bestSim sim (cv.map pyLower) (pyLower s)))).contains s = false := by
      rw [Bool.eq_false_iff]
      intro hcon
      exact hC (List.mem_filter.mp (lem_contains_iff.mp hcon)).2
    rw [hnmem, Bool.eq_false_iff.mpr hC]

/-! ## Claim theorems -/

/-- C1: for every candidate-skill list and required-skill list, the exact
matches of `_get_matched_skills`, the job-skill entries of its semantic
matches, and the skills returned by `_get_missing_skills` partition the
required skills (their concatenation is a permutation of the required
list, so every required skill lands in exactly one of the three
collections), and the three sizes sum to the number of required
skills. -/
theorem required_skills_partition (sim : String → String → ℚ)
    (candidateSkills requiredSkills : List String) :
    ((get_matched_skills sim candidateSkills requiredSkills).exactList ++
     ((get_matched_skills sim candidateSkills requiredSkills).semanticList).map
       SemMatch.job_skill ++
     get_missing_skills sim candidateSkills requiredSkills).Perm requiredSkills ∧
    (get_matched_skills sim candidateSkills requiredSkills).exactList.length +
      ((get_matched_skills sim candidateSkills requiredSkills).semanticList).length +
      (get_missing_skills sim candidateSkills requiredSkills).length =
      requiredSkills.length := by
  by_cases hj : requiredSkills = []
  · subst hj
    simp [get_matched_skills, get_missing_skills, MatchedSkills.exactList,
      MatchedSkills.semanticList]
  · by_cases hc : candidateSkills = []
    · subst hc
      simp [get_matched_skills, get_missing_skills, MatchedSkills.exactList,
        MatchedSkills.semanticList, hj, List.Perm.refl]
    · have hperm :
        ((get_matched_skills sim candidateSkills requiredSkills).exactList ++
         ((get_matched_skills sim candidateSkills requiredSkills).semanticList).map
           SemMatch.job_skill ++
         get_missing_skills sim candidateSkills requiredSkills).Perm requiredSkills := by
        rw [lem_exactList sim hc hj, lem_semantic_job_skills sim hc hj,
          lem_missing_eq sim hc hj, List.append_assoc]
        have h1 : ((List.filter (fun s => !(candidateSkills.map pyLower).contains (pyLower s)) requiredSkills).filter
              (fun s => decide (3/4 < bestSim sim (candidateSkills.map pyLower) (pyLower s))) ++
            (List.filter (fun s => !(candidateSkills.map pyLower).contains (pyLower s)) requiredSkills).filter
              (fun s => !(decide (3/4 < bestSim sim (candidateSkills.map pyLower) (pyLower s))))).Perm
            (List.filter (fun s => !(candidateSkills.map pyLower).contains (pyLower s)) requiredSkills) :=
          List.filter_append_perm _ _
        have h2 : (List.filter (fun s => (candidateSkills.map pyLower).contains (pyLower s)) requiredSkills ++
            List.filter (fun s => !(candidateSkills.map pyLower).contains (pyLower s)) requiredSkills).Perm
            requiredSkills :=
          List.filter_append_perm _ _
        exact (List.Perm.append_left _ h1).trans h2
      refine ⟨hperm, ?_⟩
      have hlen := hperm.length_eq
      simp only [List.length_append, List.length_map] at hlen
      omega

/-- C2: `_match_skills` is 1.0 on an empty required list, 0.0 on a
nonempty required list with an empty candidate list, and otherwise
`min(1.0, (0.7 * exactCount + 0.3 * sum(thresholded best similarities)) /
totalRequired)`; in the Python/Flask vs Python/Django/AWS scenario with
no similarity above the threshold the score is 0.7 * 1/3 = 7/30. -/
theorem skill_score_formula_and_scenario :
    (∀ (sim : String → String → ℚ) (cv_skills job_skills : List String),
       match_skills sim cv_skills job_skills =
         spec_skill_score sim cv_skills job_skills) ∧
    (∀ sim : String → String → ℚ, (∀ a b, sim a b ≤ 3/4) →
       match_skills sim ["Python", "Flask"] ["Python", "Django", "AWS"] = 7/30) := by
  constructor
  · intro sim cv_skills job_skills
    by_cases hj : job_skills = []
    · simp [match_skills, spec_skill_score, hj]
    · by_cases hc : cv_skills = []
      · simp [match_skills, spec_skill_score, hj, hc]
      · simp only [match_skills, spec_skill_score, spec_exactCount,
          spec_semanticSimilarities, if_neg hj, if_neg hc]
        rw [lem_foldl_cond_sum (fun js => bestSim sim (cv_skills.map pyLower) js) (3/4)]
        rw [lem_filter_of_map pyLower (fun s => (cv_skills.map pyLower).contains s)]
        rw [lem_filter_of_map pyLower (fun s => !(cv_skills.map pyLower).contains s)]
        simp only [List.length_map, List.map_map, Function.comp, zero_add]
        rw [min_comm]
        rfl
  · intro sim hsim
    have h1 : ¬ (3/4 : ℚ) < bestSim sim ["python", "flask"] ("django") := by
      simp only [bestSim, List.map_cons, List.map_nil]
      rw [lem_npMax_pair]
      exact not_lt.mpr (max_le (hsim _ _) (hsim _ _))
    have h2 : ¬ (3/4 : ℚ) < bestSim sim ["python", "flask"] ("aws") := by
      simp only [bestSim, List.map_cons, List.map_nil]
      rw [lem_npMax_pair]
      exact not_lt.mpr (max_le (hsim _ _) (hsim _ _))
    have hcv : List.map pyLower ["Python", "Flask"] = ["python", "flask"] := by decide
    have hjob : List.map pyLower ["Python", "Django", "AWS"] =
      ["python", "django", "aws"] := by decide
    simp only [match_skills,
      if_neg (by decide : ¬(["Python", "Django", "AWS"] : List String) = []),
      if_neg (by decide : ¬(["Python", "Flask"] : List String) = [])]
    rw [hcv, hjob]
    have hex : List.filter (fun s => List.contains ["python", "flask"] s)
        ["python", "django", "aws"] = ["python"] := by decide
    have hrem : List.filter (fun s => !List.contains ["python", "flask"] s)
        ["python", "django", "aws"] = ["django", "aws"] := by decide
    rw [hex, hrem]
    simp only [List.foldl_cons, List.foldl_nil]
    rw [if_neg h1, if_neg h2]
    norm_num [min_def]

/-- C2 witness: the scenario instantiated with the all-zero similarity
function. -/
theorem skill_score_scenario_witness :
    match_skills (fun _ _ => (0 : ℚ)) ["Python", "Flask"]
      ["Python", "Django", "AWS"] = 7/30 :=
  skill_score_formula_and_scenario.2 (fun _ _ => 0) (fun _ _ => by norm_num)

/-! ## Concrete fixtures (stub embedding providers and inputs) -/

/-- A stub embedding provider with zero similarity everywhere. -/
def sim_zero : String → String → ℚ := fun _ _ => 0

/-- A stub embedding provider whose only above-threshold pair is
(django, python), with similarity 0.8. -/
def sim_dj : String → String → ℚ :=
  fun a b => if a = "django" ∧ b = "python" then 4/5 else 0

/-- A stub of the regex years-extraction on the concrete CV texts used
below. -/
def ey_fix : String → Option ℕ :=
  fun t => if t = "1 year" then some 1
           else if t = "5 years" then some 5 else none

/-- Fixture: an empty CV. -/
def cv_a : CvData := { skills := [], education := [], text := "" }

/-- Fixture: a job with only a 5-year experience requirement and an
education requirement. -/
def job_a : JobData :=
  { required_skills := [], experience_years := some 5,
    experience_level := none, education_requirements := ["whatever"],
    responsibilities := [], job_title := none, text := "j" }

/-- Fixture: a CV with one year of experience and an education statement
with no degree keyword. -/
def cv_b : CvData := { skills := [], education := ["x"], text := "1 year" }

/-- Fixture: a job requiring 3 years and a master-level education. -/
def job_b : JobData :=
  { required_skills := [], experience_years := some 3,
    experience_level := none,
    education_requirements := ["requires masters degree"],
    responsibilities := [], job_title := none, text := "" }

/-- Fixture: a CV with a bachelor-level education. -/
def cv_c : CvData :=
  { skills := ["a"], education := ["Bachelor of Science in CS"], text := "cv" }

/-- Fixture: a job requiring a master-level education. -/
def job_c : JobData :=
  { required_skills := ["a"], experience_years := none,
    experience_level := none,
    education_requirements := ["Master degree in CS required"],
    responsibilities := [], job_title := none, text := "jd" }

/-- Fixture: a CV whose one skill matches the required skill only
semantically. -/
def cv_d : CvData := { skills := ["Python"], education := [], text := "cv" }

/-- Fixture: a job requiring the skill Django, with a title. -/
def job_d : JobData :=
  { required_skills := ["Django"], experience_years := none,
    experience_level := none, education_requirements := [],
    responsibilities := [], job_title := some "Dev", text := "jd" }

/-- Fixture: a CV with no skills at all. -/
def cv_e : CvData := { skills := [], education := [], text := "" }

/-- Fixture: a job requiring one skill. -/
def job_e : JobData :=
  { required_skills := ["Python"], experience_years := none,
    experience_level := none, education_requirements := [],
    responsibilities := [], job_title := none, text := "" }

/-- Fixture: a CV with five years of experience. -/
def cv_f : CvData := { skills := [], education := [], text := "5 years" }

/-- Fixture: a job requiring two years of experience, with
responsibilities. -/
def job_f : JobData :=
  { required_skills := [], experience_years := some 2,
    experience_level := none, education_requirements := [],
    responsibilities := ["Develop things"], job_title := none, text := "j" }

/-- C3 (amended): the overall percentage of `calculate_match` is
`round(100 * (0.35*skills + 0.30*experience + 0.20*education +
0.15*semanticOverall), 2)` and the four weights sum to 1.0.  (The
percentage is *not* invariant under reordering the four component
inputs — see the counterexample — since the weights differ.) -/
theorem overall_percentage_formula :
    (∀ (sim : String → String → ℚ) (ey : String → Option ℕ)
        (cv_data : CvData) (job_data : JobData),
      (calculate_match sim ey cv_data job_data).overall_match =
        pyRound2 (100 *
          (weights_skills * match_skills sim cv_data.skills job_data.required_skills +
           weights_experience * match_experience sim ey cv_data job_data +
           weights_education *
             match_education sim cv_data.education job_data.education_requirements +
           weights_overall *
             calculate_semantic_similarity sim cv_data.text job_data.text))) ∧
    weights_skills + weights_experience + weights_education + weights_overall = 1 := by
  constructor
  · intro sim ey cv_data job_data
    simp only [calculate_match]
    rw [mul_comm]
  · norm_num [weights_skills, weights_experience, weights_education, weights_overall]

/-- C3 counterexample: two runs of `calculate_match` whose four component
scores are the same multiset (a reordering) but whose overall
percentages differ (39.0 vs 41.0), refuting the claimed reorder
invariance. -/
theorem overall_percentage_not_reorder_invariant :
    ([(calculate_match sim_zero ey_fix cv_a job_a).skills.score,
      (calculate_match sim_zero ey_fix cv_a job_a).experience.score,
      (calculate_match sim_zero ey_fix cv_a job_a).education.score,
      (calculate_match sim_zero ey_fix cv_a job_a).overall_similarity.score] :
        List ℚ).Perm
      [(calculate_match sim_zero ey_fix cv_b job_b).skills.score,
       (calculate_match sim_zero ey_fix cv_b job_b).experience.score,
       (calculate_match sim_zero ey_fix cv_b job_b).education.score,
       (calculate_match sim_zero ey_fix cv_b job_b).overall_similarity.score] ∧
    (calculate_match sim_zero ey_fix cv_a job_a).overall_match ≠
      (calculate_match sim_zero ey_fix cv_b job_b).overall_match := by
  constructor
  · with_unfolding_all decide
  · with_unfolding_all decide

/-- C6 (amended): whenever the job specifies a nonzero required number of
years and the extracted candidate years meet it, the years-component is
exactly 1.0 (also at the equal-years boundary), and the experience score
is `0.6 * years-component + 0.4 * relevance-component` — so the score
itself is 1.0 only when the relevance component is 1.0. -/
theorem experience_score_decomposition (sim : String → String → ℚ)
    (ey : String → Option ℕ) (cv_data : CvData) (job_data : JobData)
    (ry cy : ℕ) (hreq : job_data.experience_years = some ry) (hpos : 0 < ry)
    (hcv : ey cv_data.text = some cy) (hge : ry ≤ cy) :
    experience_years_score (ey cv_data.text) ry = 1 ∧
    match_experience sim ey cv_data job_data =
      6/10 * experience_years_score (ey cv_data.text) ry +
      4/10 * relevance_component sim cv_data job_data := by
  have h1 : experience_years_score (ey cv_data.text) ry = 1 := by
    rw [hcv]
    simp [experience_years_score, hge]
  refine ⟨h1, ?_⟩
  simp only [match_experience, hreq]
  rw [if_neg (by omega)]

/-- C6 witness: the decomposition at a concrete input (5 CV years against
2 required). -/
theorem experience_score_decomposition_witness :
    experience_years_score (ey_fix cv_f.text) 2 = 1 ∧
    match_experience sim_zero ey_fix cv_f job_f =
      6/10 * experience_years_score (ey_fix cv_f.text) 2 +
      4/10 * relevance_component sim_zero cv_f job_f :=
  experience_score_decomposition sim_zero ey_fix cv_f job_f 2 5 rfl
    (by norm_num) (by decide) (by norm_num)

/-- C6 counterexample: required years 2, extracted CV years 5 (so the
requirement is met), yet `_match_experience` returns 0.6, not 1.0,
because the relevance component is 0. -/
theorem experience_score_not_one_at_meeting_years :
    job_f.experience_years = some 2 ∧ ey_fix cv_f.text = some 5 ∧
    match_experience sim_zero ey_fix cv_f job_f ≠ 1 := by
  refine ⟨rfl, by decide, ?_⟩
  with_unfolding_all decide

/-- C7: for every match report, `_generate_recommendations` returns a
non-empty list; when none of the rules fired it returns exactly the
single low-priority general recommendation. -/
theorem recommendations_nonempty (match_result : MatchReport) :
    generate_recommendations match_result ≠ [] ∧
    (generate_recommendations_rules match_result = [] →
      generate_recommendations match_result =
        [{ category := "general"
           recommendation :=
             "Your CV is well-matched to this position. Consider adding more specific achievements and metrics to strengthen your application further."
           priority := "low" }]) := by
  constructor
  · unfold generate_recommendations
    by_cases h : generate_recommendations_rules match_result = [] <;> simp [h]
  · intro h
    unfold generate_recommendations
    simp [h]

/-- A match report on which none of the recommendation rules fires. -/
def report_no_rule : MatchReport :=
  { overall_match := 85
    skills := { score := 85, weight := weights_skills,
                matched := .result ["a"] [], missing := [] }
    experience := { score := 85, weight := weights_experience,
                    details := { required_years := none, cv_years := none,
                                 required_level := none, gap := none } }
    education := { score := 85, weight := weights_education,
                   details := [("cv_degree_level", EduVal.none),
                               ("required_degree_level", EduVal.none),
                               ("meets_requirements", EduVal.bool true)] }
    overall_similarity := { score := 85, weight := weights_overall } }

/-- C7 witness: on a report where no rule fires, the fallback
recommendation is produced. -/
theorem recommendations_fallback_witness :
    generate_recommendations report_no_rule =
      [{ category := "general"
         recommendation :=
           "Your CV is well-matched to this position. Consider adding more specific achievements and metrics to strengthen your application further."
         priority := "low" }] :=
  (recommendations_nonempty report_no_rule).2 (by with_unfolding_all rfl)

/-- C9: `generate_report` with any format string other than `json` and
`html` returns the plain-text report, never an error. -/
theorem generate_report_default_text (feedback_report : FeedbackReport)
    (format : String) (hjson : format ≠ "json") (hhtml : format ≠ "html") :
    generate_report feedback_report format =
      .ok (generate_text_report feedback_report) := by
  unfold generate_report
  rw [if_neg hjson, if_neg hhtml]

/-- A small feedback report fixture. -/
def fb_fix : FeedbackReport :=
  { overall_match := 85
    match_category := "high match"
    summary := "s"
    skills_feedback := { score := 85, feedback := "f", matched_exact := [],
                         matched_semantic := [], missing_skills := [] }
    experience_feedback := { score := 85, feedback := "f",
                             required_years := none, your_years := none,
                             gap := none }
    education_feedback := { score := 85, feedback := "f",
                            required_degree := EduVal.none,
                            your_degree := EduVal.none,
                            meets_requirements := true }
    recommendations := []
    job_title := "T"
    match_details := report_no_rule }

/-- C9 witness: the unrecognized format string `markdown` yields the text
report. -/
theorem generate_report_default_text_witness :
    generate_report fb_fix "markdown" = .ok (generate_text_report fb_fix) :=
  generate_report_default_text fb_fix "markdown" (by decide) (by decide)

/-- C10: whenever `generate_feedback` succeeds, the report's `job_title`
is the job data's title when present and the string `This position` when
the title is absent. -/
theorem job_title_default (match_result : MatchReport) (cv_data : CvData)
    (job_data : JobData) (fr : FeedbackReport)
    (h : generate_feedback match_result cv_data job_data = .ok fr) :
    fr.job_title = job_data.job_title.getD ("This position") := by
  unfold generate_feedback at h
  cases hsf : generate_skills_feedback match_result job_data with
  | error e => rw [hsf] at h; exact absurd h (by simp)
  | ok sf =>
    rw [hsf] at h
    simp only [Except.ok.injEq] at h
    rw [← h]

/-- C10 witness: a run with a present job title (it is preserved); the
absent-title default is exercised by the C5 analysis inputs. -/
theorem job_title_default_witness :
    (generate_feedback (calculate_match sim_dj ey_fix cv_d job_d) cv_d
      job_d).map FeedbackReport.job_title = Except.ok ("Dev") := by
  have hok : ∃ fr, generate_feedback (calculate_match sim_dj ey_fix cv_d job_d)
      cv_d job_d = .ok fr := by
    cases hfb : generate_feedback (calculate_match sim_dj ey_fix cv_d job_d)
        cv_d job_d with
    | ok fr => exact ⟨fr, rfl⟩
    | error e =>
      have hno : (generate_feedback (calculate_match sim_dj ey_fix cv_d job_d)
          cv_d job_d).isOk = true := by
        with_unfolding_all rfl
      rw [hfb] at hno
      simp [Except.isOk, Except.toBool] at hno
  obtain ⟨fr, hfr⟩ := hok
  rw [hfr]
  have hjt := job_title_default (calculate_match sim_dj ey_fix cv_d job_d)
    cv_d job_d fr hfr
  simp [Except.map, hjt, job_d]

/-- C4: on a report produced by `calculate_match` where the education
requirement is not met and a required degree level exists (here
`master`), `_generate_recommendations` produces *no* education-category
recommendation: it looks up the key `required_degree`, which the details
dict (whose key is `required_degree_level`) never contains. -/
theorem education_recommendation_never_fires :
    eduGet (calculate_match sim_zero ey_fix cv_c job_c).education.details
        ("required_degree_level") = EduVal.str ("master") ∧
    eduGet (calculate_match sim_zero ey_fix cv_c job_c).education.details
        ("meets_requirements") = EduVal.bool false ∧
    (generate_recommendations (calculate_match sim_zero ey_fix cv_c job_c)).filter
        (fun r => r.category = "education") = [] := by
  refine ⟨?_, ?_, ?_⟩ <;> with_unfolding_all rfl

/-- C5: with an empty candidate-skill list and a non-empty required-skill
list, `calculate_match` stores the empty list returned by
`_get_matched_skills`, and `generate_feedback` then raises
`AttributeError` when `_generate_skills_feedback` calls `.get` on it —
the pipeline does not produce a well-formed report. -/
theorem empty_cv_skills_feedback_raises :
    (calculate_match sim_zero ey_fix cv_e job_e).skills.matched =
      MatchedSkills.emptyList ∧
    generate_feedback (calculate_match sim_zero ey_fix cv_e job_e) cv_e job_e =
      .error ("AttributeError: ’list’ object has no attribute ’get’") := by
  constructor <;> with_unfolding_all rfl

/-- C8: a report whose skills matched only semantically carries a
`numpy.float32` similarity (here `round(0.8, 2)`), and rendering it with
`generate_report` in the `json` format raises `TypeError` instead of
producing a string — so no render-parse round trip exists for such
reports. -/
theorem json_report_raises_on_semantic_match :
    (calculate_match sim_dj ey_fix cv_d job_d).skills.matched =
      MatchedSkills.result []
        [{ job_skill := "Django", cv_skill := "Python",
           similarity := PyNum.npfloat32 (4/5) }] ∧
    (generate_feedback (calculate_match sim_dj ey_fix cv_d job_d) cv_d
        job_d).bind (fun fr => generate_report fr "json") =
      .error ("TypeError: Object of type float32 is not JSON serializable") := by
  constructor <;> with_unfolding_all rfl
